import Mathlib

/-!
Shallow embedding of the health-assistant script `Copy_of_backend_model_2.py`
(repository Anushka-999/Medical-Online-Manual) and verification of its
specification.

The script loads two CSV-backed lookup tables (home remedies and OTC
medicines keyed by disease name), runs a console conversation loop
(symptom validation, remedy/OTC lookup, geolocation-guarded nearby-services
lookup), and serves a keep-alive HTTP endpoint.  Pure table lookups become
Lean functions over an explicit list-of-rows data model; the stages of the
conversation loop become step functions from the console input (an
`Option String`, `none` modelling end-of-input) and the external
collaborators (passed as function-valued oracles) to an explicit outcome
record recording what was printed, which collaborators ran, and the next
conversation state.
-/

namespace MedicalManual

/-! ### Lookup-table data model

A pandas DataFrame row is modelled positionally: the key column (column 0,
`DISEASE NAME` resp. `Diseases`) followed by the remaining value columns.
A cell is `Option String`; `none` models a null (`NaN`) cell, which
`dropna()` removes. -/

/-- A row of `REMEDIES.csv`: the `DISEASE NAME` key column followed by the
value columns (`HOMEREMEDY1` ... in the source data). -/
structure RemediesRow where
  diseaseName : String
  cells : List (Option String)
  deriving DecidableEq, Repr

/-- A row of `Book1__OTC.csv`: the `Diseases` key column followed by the
value columns (`OTC1` ... in the source data). -/
structure OtcRow where
  diseases : String
  cells : List (Option String)
  deriving DecidableEq, Repr

/-- Drop leading whitespace characters from a character list. -/
def dropLeadingWs : List Char → List Char
  | [] => []
  | c :: rest => if c.isWhitespace then dropLeadingWs rest else c :: rest

/-- Embedding of Python `str.strip()` (no argument): remove leading and
trailing whitespace. -/
def pyStrip (s : String) : String :=
  String.mk (dropLeadingWs ((dropLeadingWs s.data.reverse).reverse))

/-- Embedding of Python `str.lower()`: lowercase every character. -/
def pyLower (s : String) : String :=
  String.mk (s.data.map Char.toLower)

/-- The normalisation both lookups apply to the key column and to the query:
Python `s.lower().strip()`. -/
def normKey (s : String) : String := pyStrip (pyLower s)

/-- Embedding of `get_remedies_for_disease(disease, remedies_df)`:
filter the rows whose normalised `DISEASE NAME` equals the normalised query,
take the first such row (`iloc[0]`), slice value columns 1..6
(`iloc[0, 1:7]`, modelled by `cells.take 6`), drop nulls (`dropna()`,
modelled by `filterMap id`); if no row matches, return `[]`. -/
def get_remedies_for_disease (disease : String) (remedies_df : List RemediesRow) :
    List String :=
  match remedies_df.find? (fun row => normKey row.diseaseName == normKey disease) with
  | some remedies_row => (remedies_row.cells.take 6).filterMap id
  | none => []

/-- Embedding of `get_otc_for_disease(disease, otc_df)`: identical to the
remedies lookup but against the `Diseases` column and value columns 1..4
(`iloc[0, 1:5]`). -/
def get_otc_for_disease (disease : String) (otc_df : List OtcRow) : List String :=
  match otc_df.find? (fun row => normKey row.diseases == normKey disease) with
  | some otc_row => (otc_row.cells.take 4).filterMap id
  | none => []

/-! ### Helper lemmas about the null-dropping slice -/

/-- Re-tagging the survivors of `filterMap id` with `some` recovers a
subsequence of the original list of optional cells: `dropna` keeps the
non-null cells in their original order. -/
theorem filterMap_id_map_some_sublist {α : Type} (l : List (Option α)) :
    ((l.filterMap id).map some).Sublist l := by
  induction l with
  | nil => simp
  | cons a t ih =>
    cases a with
    | none =>
      have e : List.filterMap id (none :: t) = List.filterMap id t := by simp
      rw [e]
      exact ih.cons none
    | some x =>
      have e : List.filterMap id (some x :: t) = x :: List.filterMap id t := by
        simp
      rw [e, List.map_cons]
      exact ih.cons₂ (some x)

/-- The null-dropped slice of the first `n` cells has at most `n` entries. -/
theorem length_filterMap_id_take_le {α : Type} (n : Nat) (l : List (Option α)) :
    ((l.take n).filterMap id).length ≤ n := by
  have h1 := (filterMap_id_map_some_sublist (l.take n)).length_le
  rw [List.length_map] at h1
  calc ((l.take n).filterMap id).length ≤ (l.take n).length := h1
    _ ≤ n := by simp

/-- Demonstration remedies table used by concrete witnesses. -/
def demoRemedies : List RemediesRow :=
  [{ diseaseName := "Fever"
     cells := [some "Hydration", none, some "Rest", none, none, none] }]

/-- Demonstration OTC table used by concrete witnesses. -/
def demoOtc : List OtcRow :=
  [{ diseases := "Fever"
     cells := [some "Paracetamol", none, some "Ibuprofen", none] }]

/-! ### Claims about the lookups -/

/-- C1: both lookups are case- and whitespace-insensitive — two disease
strings that agree after lowercasing and stripping surrounding whitespace
yield the same remedies and the same OTC medicines on every table. -/
theorem lookups_case_whitespace_insensitive (d1 d2 : String)
    (rdf : List RemediesRow) (odf : List OtcRow)
    (h : pyStrip (pyLower d1) = pyStrip (pyLower d2)) :
    get_remedies_for_disease d1 rdf = get_remedies_for_disease d2 rdf ∧
    get_otc_for_disease d1 odf = get_otc_for_disease d2 odf := by
  have hk : normKey d1 = normKey d2 := h
  constructor <;>
    simp [get_remedies_for_disease, get_otc_for_disease, hk]

/-- Witness for C1 at the spec's own examples: `"Fever"`, `" fever "` and
`"FEVER"` resolve to the same row of the demonstration tables. -/
theorem lookups_case_whitespace_insensitive_witness :
    get_remedies_for_disease "Fever" demoRemedies =
      get_remedies_for_disease " fever " demoRemedies ∧
    get_otc_for_disease "Fever" demoOtc = get_otc_for_disease "FEVER" demoOtc := by
  refine ⟨(lookups_case_whitespace_insensitive "Fever" " fever " demoRemedies demoOtc
      (by decide)).1,
    (lookups_case_whitespace_insensitive "Fever" "FEVER" demoRemedies demoOtc
      (by decide)).2⟩

/-- C2: when the (normalised) disease matches a row, the remedies lookup
returns exactly the null-dropped slice of that row's first 6 value columns —
hence at most 6 entries, each a cell of the row, in original column order
(the entries re-tagged with `some` form a subsequence of the row's cells);
the OTC lookup satisfies the identical contract with 4 value columns. -/
theorem lookups_match_row_contract (d : String)
    (rdf : List RemediesRow) (odf : List OtcRow)
    (rrow : RemediesRow) (orow : OtcRow)
    (h1 : rdf.find? (fun r => normKey r.diseaseName == normKey d) = some rrow)
    (h2 : odf.find? (fun r => normKey r.diseases == normKey d) = some orow) :
    get_remedies_for_disease d rdf = (rrow.cells.take 6).filterMap id ∧
    (get_remedies_for_disease d rdf).length ≤ 6 ∧
    ((get_remedies_for_disease d rdf).map some).Sublist rrow.cells ∧
    get_otc_for_disease d odf = (orow.cells.take 4).filterMap id ∧
    (get_otc_for_disease d odf).length ≤ 4 ∧
    ((get_otc_for_disease d odf).map some).Sublist orow.cells := by
  have e1 : get_remedies_for_disease d rdf = (rrow.cells.take 6).filterMap id := by
    simp [get_remedies_for_disease, h1]
  have e2 : get_otc_for_disease d odf = (orow.cells.take 4).filterMap id := by
    simp [get_otc_for_disease, h2]
  refine ⟨e1, ?_, ?_, e2, ?_, ?_⟩
  · rw [e1]; exact length_filterMap_id_take_le 6 rrow.cells
  · rw [e1]
    exact (filterMap_id_map_some_sublist (rrow.cells.take 6)).trans
      (List.take_sublist 6 rrow.cells)
  · rw [e2]; exact length_filterMap_id_take_le 4 orow.cells
  · rw [e2]
    exact (filterMap_id_map_some_sublist (orow.cells.take 4)).trans
      (List.take_sublist 4 orow.cells)

/-- Witness for C2: on the demonstration tables the query `"FEVER "` matches
the `"Fever"` row and returns its non-null cells in column order. -/
theorem lookups_match_row_contract_witness :
    get_remedies_for_disease "FEVER " demoRemedies = ["Hydration", "Rest"] ∧
    get_otc_for_disease "FEVER " demoOtc = ["Paracetamol", "Ibuprofen"] := by
  have h := lookups_match_row_contract "FEVER " demoRemedies demoOtc
    { diseaseName := "Fever"
      cells := [some "Hydration", none, some "Rest", none, none, none] }
    { diseases := "Fever"
      cells := [some "Paracetamol", none, some "Ibuprofen", none] }
    (by decide) (by decide)
  exact ⟨h.1.trans (by decide), h.2.2.2.1.trans (by decide)⟩

/-- C3: a disease matching no row (after normalisation) yields the empty
list from both lookups — the functions are total, no error is raised. -/
theorem lookups_miss_yield_empty (d : String)
    (rdf : List RemediesRow) (odf : List OtcRow)
    (h1 : ∀ row ∈ rdf, normKey row.diseaseName ≠ normKey d)
    (h2 : ∀ row ∈ odf, normKey row.diseases ≠ normKey d) :
    get_remedies_for_disease d rdf = [] ∧ get_otc_for_disease d odf = [] := by
  have e1 : rdf.find? (fun r => normKey r.diseaseName == normKey d) = none := by
    rw [List.find?_eq_none]
    intro x hx
    simpa using h1 x hx
  have e2 : odf.find? (fun r => normKey r.diseases == normKey d) = none := by
    rw [List.find?_eq_none]
    intro x hx
    simpa using h2 x hx
  simp [get_remedies_for_disease, get_otc_for_disease, e1, e2]

/-- Witness for C3: `"Plague"` matches no row of the demonstration tables
and both lookups return the empty list. -/
theorem lookups_miss_yield_empty_witness :
    get_remedies_for_disease "Plague" demoRemedies = [] ∧
    get_otc_for_disease "Plague" demoOtc = [] :=
  lookups_miss_yield_empty "Plague" demoRemedies demoOtc
    (by decide) (by decide)

/-! ### Console input and the conversation loop

Console reads are modelled by an `Option String`: `some line` is a line read
from stdin, `none` is end-of-input (Python `EOFError`).  The conversation
loop of `process_user_input` is modelled stage by stage as step functions;
external collaborators (the classifier, the OTC table lookup at the OTC
stage, geolocation and nearby services) are passed in as function-valued
oracles so that theorems quantifying over all oracles can express that a
collaborator is never invoked on some path. -/

/-- Embedding of `safe_input(prompt, default)`: a successful read is
stripped; end-of-input yields the default unchanged. -/
def safe_input (inp : Option String) (default : String) : String :=
  match inp with
  | some line => pyStrip line
  | none => default

/-- The symptom prompt read: `safe_input(..., default="fever")`. -/
def symptomPromptRead (inp : Option String) : String := safe_input inp "fever"

/-- The OTC prompt read: `safe_input(..., default="no")` (before the
`.lower()` the caller applies). -/
def otcPromptRead (inp : Option String) : String := safe_input inp "no"

/-- The location prompt read: `safe_input(..., default="New York")`. -/
def locationPromptRead (inp : Option String) : String :=
  safe_input inp "New York"

/-- The states of the conversation flow, per the specification's state
machine. -/
inductive ConvState where
  | awaitSymptom
  | diagnosed
  | awaitOtcChoice
  | awaitLocation
  | done
  deriving DecidableEq, Repr

/-- A single entry of the classifier's prediction list: either a string
label (`isinstance(symptom, str)` holds) or a non-string value. -/
inductive Prediction where
  | label (s : String)
  | nonLabel
  deriving DecidableEq, Repr

/-- The string carried by a prediction, when it is a string: the filter
`[symptom for symptom in matched_symptoms if isinstance(symptom, str)]`. -/
def predLabel? : Prediction → Option String
  | .label s => some s
  | .nonLabel => none

/-- Embedding of `re.fullmatch(r'\d+', user_input)` being a match: the
string is non-empty and consists only of digits. -/
def fullmatchDigits (s : String) : Bool :=
  !s.data.isEmpty && s.data.all Char.isDigit

/-- Outcome of one pass of the symptom loop: either print a message and
stay in `AWAIT_SYMPTOM` (`continue` / the retrying branches), or leave the
loop with the working diagnosis (`detected_symptoms[0]`). -/
inductive SymOutcome where
  | retry (msg : String)
  | diagnosed (disease : String)
  deriving DecidableEq, Repr

/-- Message printed for an all-digit symptom input. -/
def numericInvalidMsg : String :=
  "Invalid input! Please enter valid symptoms (not numbers)."

/-- Message printed when the prediction list is empty. -/
def unrecognizedMsg : String :=
  "I couldn\x27t recognize those symptoms. Please try again."

/-- Message printed when no prediction is a string label. -/
def notRecognizableMsg : String :=
  "Invalid input! Please enter recognizable symptoms."

/-- Embedding of one iteration of the symptom loop in
`process_user_input`: read and strip the input (default `"fever"` on EOF),
reject all-digit input, otherwise classify and keep the first string-typed
prediction as the disease; with no prediction or no string-typed
prediction, print a message and loop. -/
def symptomStep (classify : String → List Prediction) (inp : Option String) :
    SymOutcome :=
  let user_input := symptomPromptRead inp
  if fullmatchDigits user_input then
    SymOutcome.retry numericInvalidMsg
  else
    let matched_symptoms := classify user_input
    if matched_symptoms.isEmpty then
      SymOutcome.retry unrecognizedMsg
    else
      match matched_symptoms.filterMap predLabel? with
      | [] => SymOutcome.retry notRecognizableMsg
      | d :: _ => SymOutcome.diagnosed d

/-- Outcome of the OTC stage: whether `get_otc_for_disease` ran, what was
printed, and the state the flow moves to. -/
structure OtcOutcome where
  ranLookup : Bool
  printed : List String
  next : ConvState
  deriving DecidableEq, Repr

/-- Header line printed before the OTC medicine list. -/
def otcHeaderMsg : String := "Here are some OTC medicines you can try:"

/-- Message printed when the OTC lookup returns nothing. -/
def otcNoneFoundMsg : String := "No OTC medicines found."

/-- Message printed for the choice `"no"`. -/
def otcSkipMsg : String := "No OTC medicines will be displayed."

/-- Message printed for any choice other than `"yes"` or `"no"`. -/
def otcInvalidMsg : String :=
  "Invalid input. Please enter \x27yes\x27 or \x27no\x27."

/-- Embedding of the OTC stage of `process_user_input`: read the choice
(default `"no"` on EOF), lowercase it; on `"yes"` run the OTC lookup and
print its results (or a none-found message), on `"no"` print a skip
message, otherwise print an invalid-input message; in every case control
falls through to the location prompt. -/
def otcStep (otcLookup : String → List String) (disease : String)
    (inp : Option String) : OtcOutcome :=
  let otc_choice := pyLower (otcPromptRead inp)
  if otc_choice = "yes" then
    let otc_medicines := otcLookup disease
    if otc_medicines.isEmpty then
      { ranLookup := true, printed := [otcNoneFoundMsg]
        next := ConvState.awaitLocation }
    else
      { ranLookup := true
        printed := otcHeaderMsg :: otc_medicines.map (fun otc => "- " ++ otc)
        next := ConvState.awaitLocation }
  else if otc_choice = "no" then
    { ranLookup := false, printed := [otcSkipMsg]
      next := ConvState.awaitLocation }
  else
    { ranLookup := false, printed := [otcInvalidMsg]
      next := ConvState.awaitLocation }

/-- Python truthiness of an optional coordinate: `None` is falsy, a number
is falsy exactly when it is zero. -/
def pyTruthy : Option ℚ → Bool
  | none => false
  | some x => decide (x ≠ 0)

/-- Outcome of the location stage: whether `get_nearby_services` was
invoked, what was printed, and the state the flow ends in. -/
structure LocOutcome where
  invokedServices : Bool
  printed : List String
  next : ConvState
  deriving DecidableEq, Repr

/-- Apology printed when the geolocation lookup yields no usable
coordinates. -/
def locationFailMsg : String :=
  "Sorry, I couldn\x27t find that location. Please try again."

/-- Embedding of the location stage of `process_user_input`: read the
location (default `"New York"` on EOF), call the geolocation collaborator,
and guard the nearby-services call with `if lat and lng:` — Python
truthiness of both coordinates (`None`-or-non-`(some, some)` results and
zero coordinates are falsy).  The flow ends either way. -/
def locationStep (geo : String → Option ℚ × Option ℚ)
    (services : ℚ → ℚ → List String) (inp : Option String) : LocOutcome :=
  let location := locationPromptRead inp
  match geo location with
  | (some lat, some lng) =>
    if pyTruthy (some lat) && pyTruthy (some lng) then
      { invokedServices := true, printed := services lat lng
        next := ConvState.done }
    else
      { invokedServices := false, printed := [locationFailMsg]
        next := ConvState.done }
  | _ =>
    { invokedServices := false, printed := [locationFailMsg]
      next := ConvState.done }

/-! ### Claims about the conversation loop -/

/-- C4: an input that is all digits after stripping is rejected with the
validation message and the loop stays at `AWAIT_SYMPTOM`; the outcome does
not depend on the classifier, so no classification (hence no diagnosis and
no lookup) occurs for that input. -/
theorem numeric_symptom_rejected (classify : String → List Prediction)
    (raw : String) (h : fullmatchDigits (pyStrip raw) = true) :
    symptomStep classify (some raw) = SymOutcome.retry numericInvalidMsg ∧
    ∀ f g : String → List Prediction,
      symptomStep f (some raw) = symptomStep g (some raw) := by
  constructor
  · simp [symptomStep, symptomPromptRead, safe_input, h]
  · intro f g
    simp [symptomStep, symptomPromptRead, safe_input, h]

/-- Witness for C4 at the spec's scenario input `" 12345 "`. -/
theorem numeric_symptom_rejected_witness :
    fullmatchDigits (pyStrip " 12345 ") = true ∧
    symptomStep (fun _ => [Prediction.label "Migraine"]) (some " 12345 ") =
      SymOutcome.retry numericInvalidMsg :=
  ⟨by decide,
    (numeric_symptom_rejected (fun _ => [Prediction.label "Migraine"])
      " 12345 " (by decide)).1⟩

/-- C5: at the OTC prompt (with the stripped, lowercased choice): `"yes"`
runs the lookup and prints its results or a none-found message; `"no"` does
not run the lookup and prints the skip message; any other choice does not
run the lookup and prints the invalid-input message; in all three cases the
flow advances to the location prompt without retrying.  Independence from
the lookup oracle in the `"no"` and invalid cases witnesses that the lookup
is not invoked there. -/
theorem otc_choice_cases (otcLookup : String → List String) (disease : String)
    (raw : String) :
    (pyLower (pyStrip raw) = "yes" →
      (otcStep otcLookup disease (some raw)).ranLookup = true ∧
      (otcStep otcLookup disease (some raw)).printed =
        (if (otcLookup disease).isEmpty then [otcNoneFoundMsg]
         else otcHeaderMsg :: (otcLookup disease).map (fun otc => "- " ++ otc))) ∧
    (pyLower (pyStrip raw) = "no" →
      (otcStep otcLookup disease (some raw)).ranLookup = false ∧
      (otcStep otcLookup disease (some raw)).printed = [otcSkipMsg] ∧
      ∀ f g : String → List String,
        otcStep f disease (some raw) = otcStep g disease (some raw)) ∧
    (pyLower (pyStrip raw) ≠ "yes" → pyLower (pyStrip raw) ≠ "no" →
      (otcStep otcLookup disease (some raw)).ranLookup = false ∧
      (otcStep otcLookup disease (some raw)).printed = [otcInvalidMsg] ∧
      ∀ f g : String → List String,
        otcStep f disease (some raw) = otcStep g disease (some raw)) ∧
    (otcStep otcLookup disease (some raw)).next = ConvState.awaitLocation := by
  refine ⟨fun hy => ?_, fun hn => ?_, fun hy hn => ?_, ?_⟩
  · by_cases he : (otcLookup disease).isEmpty <;>
      simp [otcStep, otcPromptRead, safe_input, hy, he]
  · simp [otcStep, otcPromptRead, safe_input, hn]
  · simp [otcStep, otcPromptRead, safe_input, hy, hn]
  · by_cases hy : pyLower (pyStrip raw) = "yes"
    · by_cases he : (otcLookup disease).isEmpty <;>
        simp [otcStep, otcPromptRead, safe_input, hy, he]
    · by_cases hn : pyLower (pyStrip raw) = "no" <;>
        simp [otcStep, otcPromptRead, safe_input, hy, hn]

/-- Witness for C5: choice `" YES "` runs the lookup and prints the
medicines; `"no"` skips; `"maybe"` prints the invalid message and still
advances to the location prompt. -/
theorem otc_choice_cases_witness :
    (otcStep (fun _ => ["Paracetamol"]) "fever" (some " YES ")).ranLookup =
      true ∧
    (otcStep (fun _ => ["Paracetamol"]) "fever" (some "no")).ranLookup =
      false ∧
    (otcStep (fun _ => ["Paracetamol"]) "fever" (some "maybe")).printed =
      [otcInvalidMsg] ∧
    (otcStep (fun _ => ["Paracetamol"]) "fever" (some "maybe")).next =
      ConvState.awaitLocation :=
  ⟨((otc_choice_cases (fun _ => ["Paracetamol"]) "fever" " YES ").1
      (by decide)).1,
    ((otc_choice_cases (fun _ => ["Paracetamol"]) "fever" "no").2.1
      (by decide)).1,
    ((otc_choice_cases (fun _ => ["Paracetamol"]) "fever" "maybe").2.2.1
      (by decide) (by decide)).2.1,
    (otc_choice_cases (fun _ => ["Paracetamol"]) "fever" "maybe").2.2.2⟩

/-- C6: when the geolocation collaborator returns `(None, None)`, the
nearby-services oracle is never invoked (the outcome is independent of it),
the failure apology is printed, and the flow ends. -/
theorem geolocation_none_skips_services (geo : String → Option ℚ × Option ℚ)
    (services : ℚ → ℚ → List String) (inp : Option String)
    (h : geo (locationPromptRead inp) = (none, none)) :
    locationStep geo services inp =
      { invokedServices := false, printed := [locationFailMsg]
        next := ConvState.done } ∧
    ∀ s1 s2 : ℚ → ℚ → List String,
      locationStep geo s1 inp = locationStep geo s2 inp := by
  constructor
  · simp [locationStep, h]
  · intro s1 s2
    simp [locationStep, h]

/-- Witness for C6 with a geolocation oracle that always fails. -/
theorem geolocation_none_skips_services_witness :
    locationStep (fun _ => (none, none)) (fun _ _ => ["General Hospital"])
        (some "Atlantis") =
      { invokedServices := false, printed := [locationFailMsg]
        next := ConvState.done } :=
  (geolocation_none_skips_services (fun _ => (none, none))
    (fun _ _ => ["General Hospital"]) (some "Atlantis") rfl).1

/-- C7: end-of-input at each prompt yields that prompt's named default —
`"fever"` at the symptom prompt, `"no"` at the OTC prompt, `"New York"` at
the location prompt — and in general `safe_input` returns its default on
EOF instead of propagating an error. -/
theorem eof_yields_prompt_defaults :
    symptomPromptRead none = "fever" ∧
    otcPromptRead none = "no" ∧
    locationPromptRead none = "New York" ∧
    ∀ d : String, safe_input none d = d :=
  ⟨rfl, rfl, rfl, fun _ => rfl⟩

/-- C8: the guard before the nearby-services call tests Python truthiness
of both coordinates: whenever either coordinate of the geolocation result
is falsy (`None`, or the number `0`, as on the equator or prime meridian),
the services oracle is not invoked and the failure apology is printed. -/
theorem falsy_coordinate_skips_services (geo : String → Option ℚ × Option ℚ)
    (services : ℚ → ℚ → List String) (inp : Option String)
    (h : pyTruthy (geo (locationPromptRead inp)).1 = false ∨
      pyTruthy (geo (locationPromptRead inp)).2 = false) :
    locationStep geo services inp =
      { invokedServices := false, printed := [locationFailMsg]
        next := ConvState.done } ∧
    ∀ s1 s2 : ℚ → ℚ → List String,
      locationStep geo s1 inp = locationStep geo s2 inp := by
  have key : ∀ s : ℚ → ℚ → List String,
      locationStep geo s inp =
        { invokedServices := false, printed := [locationFailMsg]
          next := ConvState.done } := by
    intro s
    rcases hp : geo (locationPromptRead inp) with ⟨l, r⟩
    rw [hp] at h
    cases l with
    | none => simp [locationStep, hp]
    | some a =>
      cases r with
      | none => simp [locationStep, hp]
      | some b =>
        rcases h with h | h <;>
          simp only [pyTruthy] at h <;>
          simp [locationStep, hp, pyTruthy, h]
  exact ⟨key services, fun s1 s2 => (key s1).trans (key s2).symm⟩

/-- Witness for C8: latitude `0` (the equator) with a genuine longitude is
rejected by the truthiness guard and the services oracle output never
appears. -/
theorem falsy_coordinate_skips_services_witness :
    pyTruthy (((fun _ : String => ((some 0 : Option ℚ), (some 1 : Option ℚ)))
        (locationPromptRead (some "Equator City"))).1) = false ∧
    locationStep (fun _ => ((some 0 : Option ℚ), (some 1 : Option ℚ)))
        (fun _ _ => ["General Hospital"]) (some "Equator City") =
      { invokedServices := false, printed := [locationFailMsg]
        next := ConvState.done } :=
  ⟨by decide,
    (falsy_coordinate_skips_services
      (fun _ => ((some 0 : Option ℚ), (some 1 : Option ℚ)))
      (fun _ _ => ["General Hospital"]) (some "Equator City")
      (Or.inl (by decide))).1⟩

/-! ### Keep-alive HTTP responder and port configuration -/

/-- An HTTP response as assembled by the handler: status line, headers, and
body. -/
structure HttpResponse where
  status : Nat
  headers : List (String × String)
  body : String
  deriving DecidableEq, Repr

/-- Embedding of `KeepAliveHandler.do_GET`: for any request path the
handler sends status 200, the single header `Content-type: text/plain`,
and the fixed body.  The handler never inspects `self.path`, which the
parameter makes explicit. -/
def do_GET (_path : String) : HttpResponse :=
  { status := 200
    headers := [("Content-type", "text/plain")]
    body := "Service is running..." }

/-- Validity of the digit part of a Python integer literal: non-empty,
starts and ends with a digit, and single underscores may only separate
digits (Python 3 allows `int("8_080")`). -/
def intDigitsOk : List Char → Bool
  | [] => false
  | [c] => c.isDigit
  | c :: '_' :: rest => c.isDigit && intDigitsOk rest
  | c :: c2 :: rest => c.isDigit && intDigitsOk (c2 :: rest)

/-- Numeric value of a digit run, underscores skipped. -/
def digitsVal (cs : List Char) : Nat :=
  cs.foldl (fun a c => if c.isDigit then a * 10 + (c.toNat - 48) else a) 0

/-- Modelled from Python semantics: `int(s)` on a string — strip
surrounding whitespace, allow an optional sign, then require a digit run
(with underscore separators); any other string raises `ValueError`,
modelled as `Except.error`. -/
def pyInt (s : String) : Except String Int :=
  let cs := (pyStrip s).data
  let signBody : Int × List Char :=
    match cs with
    | '+' :: rest => (1, rest)
    | '-' :: rest => (-1, rest)
    | _ => (1, cs)
  if intDigitsOk signBody.2 then
    Except.ok (signBody.1 * (digitsVal signBody.2 : Int))
  else
    Except.error ("invalid literal for int() with base 10: " ++ s)

/-- Embedding of the module-level startup line
`PORT = int(os.environ.get("PORT", 8080))` followed by binding the server:
with the variable unset the port is `int(8080) = 8080`; with the variable
set, `int` parses it, and a `ValueError` (the `Except.error` case) aborts
startup before `TCPServer` ever serves.  The `Except.ok` port is the port
the server then serves on. -/
def startup (envPORT : Option String) : Except String Int :=
  match envPORT with
  | none => Except.ok 8080
  | some s => pyInt s

/-! ### Claims about the responder and the port -/

/-- C9: every GET request, whatever its path, is answered with status 200,
header `Content-type: text/plain`, and the fixed body
`"Service is running..."`; the response does not depend on the path. -/
theorem get_liveness_response (path : String) :
    (do_GET path).status = 200 ∧
    (do_GET path).headers = [("Content-type", "text/plain")] ∧
    (do_GET path).body = "Service is running..." ∧
    ∀ p1 p2 : String, do_GET p1 = do_GET p2 :=
  ⟨rfl, rfl, rfl, fun _ _ => rfl⟩

/-- C10: with the `PORT` variable unset the server starts on port 8080;
with it set, the numeric value is used, and a non-numeric value makes
startup fail (a `ValueError` from `int`) before the server begins
serving. -/
theorem port_configuration :
    startup none = Except.ok 8080 ∧
    (∀ s n, pyInt s = Except.ok n → startup (some s) = Except.ok n) ∧
    (∀ s e, pyInt s = Except.error e → startup (some s) = Except.error e) :=
  ⟨rfl, fun _ _ h => h, fun _ _ h => h⟩

/-- Witness for C10: `"8080"` parses to port 8080 while the non-numeric
`"abc"` aborts startup with a `ValueError`. -/
theorem port_configuration_witness :
    startup (some "8080") = Except.ok 8080 ∧
    startup (some "abc") =
      Except.error "invalid literal for int() with base 10: abc" :=
  ⟨port_configuration.2.1 "8080" 8080 rfl,
    port_configuration.2.2 "abc" "invalid literal for int() with base 10: abc"
      rfl⟩

end MedicalManual
